import Mathlib

/-!
Shallow embedding of the pnpm lockfile read pipeline
(src/package-manager/modules/pnpm/read.ts).

Modelling conventions, stated once:

* JavaScript field values distinguish `undefined` (key absent or set to
  `undefined`), `null`, and a present value; `JsVal` mirrors that three-way
  split because `convertFromLockfileFileMutable` tests `typeof x === 'undefined'`
  and `x !== null` separately.
* The external collaborators declared out of scope by the design (the YAML
  parser, `comver-to-semver`, `semver`, the git merge-conflict detector and
  resolver, `revertFromInlineSpecifiersFormatIfNecessary`) are represented by
  their interface behaviour: a raw file carries its parse result, its
  conflict-marker flag and its merge result as data; the inline-specifiers
  revert step is an arbitrary function parameter `revert`; version expansion
  follows the documented comver rule, mapping a two-component token
  `major.minor` to the semantic version `(major, minor, 0)` and defaulting an
  absent token to the baseline `0`.
* A format-version token read from YAML is either a YAML number (for example
  `5.4`) or a YAML string (for example a quoted 6.0); the carve-out test in
  the source is a strict `!== '6.1'` comparison against the string literal,
  so the model keeps the number/string distinction in `VersionToken`.
* The mutating in-place migration is rendered as a pure transform on the
  document value, and the process-wide logger as an explicit list of emitted
  log entries returned next to the result.
-/

/-- A JavaScript-ish field value: absent/undefined, null, or present. -/
inductive JsVal (α : Type) : Type
  | undef : JsVal α
  | null : JsVal α
  | val : α → JsVal α
deriving DecidableEq, Repr

/-- JavaScript nullish coalescing `v ?? d`: both `undefined` and `null`
fall through to the default. -/
def JsVal.nullishOr {α : Type} : JsVal α → α → α
  | JsVal.val a, _ => a
  | _, d => d

/-- Dependency-name → specifier/version maps; their entries are carried
around untouched by the code under verification. -/
abbrev DepMap := List (String × String)

/-- The declared lockfile format-version token as produced by the YAML
parser: a compact two-component comver form, either a YAML number
(`num`, such as 5.4) or a YAML string (`str`, such as a quoted 6.0). -/
inductive VersionToken : Type
  | num : Nat → Nat → VersionToken
  | str : Nat → Nat → VersionToken
deriving DecidableEq, Repr

/-- Major component of a comver token. -/
def VersionToken.comverMajor : VersionToken → Nat
  | VersionToken.num m _ => m
  | VersionToken.str m _ => m

/-- Minor component of a comver token. -/
def VersionToken.comverMinor : VersionToken → Nat
  | VersionToken.num _ n => n
  | VersionToken.str _ n => n

/-- A full semantic version, the codomain of `comver-to-semver`. -/
structure SemVer : Type where
  major : Nat
  minor : Nat
  patch : Nat
deriving DecidableEq, Repr

/-- Strict semver comparison `semver.gt`, lexicographic on
(major, minor, patch). -/
def SemVer.gtB (a b : SemVer) : Bool :=
  decide (a.major > b.major) ||
    (decide (a.major = b.major) &&
      (decide (a.minor > b.minor) ||
        (decide (a.minor = b.minor) && decide (a.patch > b.patch))))

/-- The `comver-to-semver` expansion rule: a two-component token
`major.minor` becomes the semantic version `major.minor.0`. -/
def comverToSemver (t : VersionToken) : SemVer :=
  { major := t.comverMajor, minor := t.comverMinor, patch := 0 }

/-- Expansion of the document's declared token, `read.ts` line 76:
`comverToSemver((lockfile.lockfileVersion ?? 0).toString())` — an absent
token defaults to the baseline value 0 before expansion. -/
def docSemver (v : Option VersionToken) : SemVer :=
  comverToSemver (v.getD (VersionToken.num 0 0))

/-- A per-project dependency snapshot (`ProjectSnapshot` from
pnpm lockfile-types): the fields touched by `convertFromLockfileFileMutable`. -/
structure ProjectSnapshot : Type where
  specifiers : JsVal DepMap
  dependenciesMeta : JsVal DepMap
  publishDirectory : JsVal String
  dependencies : JsVal DepMap
  optionalDependencies : JsVal DepMap
  devDependencies : JsVal DepMap
deriving DecidableEq, Repr

/-- The parsed lockfile document (`LockfileFile`): the canonical
project-path → snapshot mapping `importers`, the legacy flat root fields,
the declared format-version token, and a representative untouched field
(`packages`) standing for the remaining document metadata. -/
structure LockfileFile : Type where
  lockfileVersion : Option VersionToken
  importers : JsVal (List (String × ProjectSnapshot))
  specifiers : JsVal DepMap
  dependenciesMeta : JsVal DepMap
  publishDirectory : JsVal String
  dependencies : JsVal DepMap
  optionalDependencies : JsVal DepMap
  devDependencies : JsVal DepMap
  packages : JsVal DepMap
deriving DecidableEq, Repr

/-- One iteration of the `DEPENDENCIES_FIELDS` loop (`read.ts` lines
142-147), value placed into the default snapshot: the root value moves in
unless it is `null` (the guard is `!== null`, so an `undefined` root field
moves as `undefined`, indistinguishable from the initial absent field). -/
def movedSnapField (v : JsVal DepMap) : JsVal DepMap :=
  if v = JsVal.null then JsVal.undef else v

/-- One iteration of the `DEPENDENCIES_FIELDS` loop, value left at the
document root: deleted (undefined) unless the field was `null`, in which
case the loop body is skipped and the `null` entry stays. -/
def movedRootField (v : JsVal DepMap) : JsVal DepMap :=
  if v = JsVal.null then JsVal.null else JsVal.undef

/-- Schema normalization, `read.ts` lines 131-149, as a pure transform.
If `importers` is `undefined` (the `typeof ... === 'undefined'` test, so a
`null` importers field is NOT migrated), synthesize the default project
entry under the key "." absorbing `specifiers` (nullish-coalesced to the
empty map), `dependenciesMeta` and `publishDirectory`, then move each
non-null field of `DEPENDENCIES_FIELDS = [optionalDependencies,
dependencies, devDependencies]` into that snapshot and delete it from the
root. Otherwise the document is returned as-is. -/
def convertFromLockfileFileMutable (f : LockfileFile) : LockfileFile :=
  match f.importers with
  | JsVal.undef =>
    { f with
      importers := JsVal.val
        [(".",
          { specifiers := JsVal.val (f.specifiers.nullishOr [])
            dependenciesMeta := f.dependenciesMeta
            publishDirectory := f.publishDirectory
            dependencies := movedSnapField f.dependencies
            optionalDependencies := movedSnapField f.optionalDependencies
            devDependencies := movedSnapField f.devDependencies })]
      specifiers := JsVal.undef
      dependencies := movedRootField f.dependencies
      optionalDependencies := movedRootField f.optionalDependencies
      devDependencies := movedRootField f.devDependencies }
  | JsVal.null => f
  | JsVal.val _ => f

/-- Compatibility verdict of the version gate; `acceptWithWarning`
records the wanted version named in the logged downgrade message. -/
inductive Verdict : Type
  | accept : Verdict
  | acceptWithWarning : VersionToken → Verdict
  | reject : Verdict
deriving DecidableEq, Repr

/-- Whether a verdict lets the document through. -/
def Verdict.isAccepting : Verdict → Bool
  | Verdict.reject => false
  | _ => true

/-- The short-circuiting `opts.wantedVersions.some(...)` callback loop,
`read.ts` lines 81-93: the first wanted version sharing the document's
expanded major component decides the verdict; it warns exactly when the
document's raw token is not the string literal 6.1 (a strict `!==`
comparison, so the YAML number 6.1 still warns) and the document's
expanded version is strictly greater. An exhausted list means no wanted
version shares the major component: reject. -/
def evalSome (v : Option VersionToken) : List VersionToken → Verdict
  | [] => Verdict.reject
  | w :: ws =>
    if (docSemver v).major = (comverToSemver w).major then
      if v ≠ some (VersionToken.str 6 1) ∧
          SemVer.gtB (docSemver v) (comverToSemver w) = true then
        Verdict.acceptWithWarning w
      else
        Verdict.accept
    else
      evalSome v ws

/-- The whole compatibility gate condition, `read.ts` lines 78-94:
`!opts.wantedVersions || opts.wantedVersions.length === 0 || ...some(...)`.
An absent or empty acceptable-version set accepts unconditionally. -/
def evaluate (v : Option VersionToken) :
    Option (List VersionToken) → Verdict
  | none => Verdict.accept
  | some [] => Verdict.accept
  | some (w :: ws) => evalSome v (w :: ws)

/-- The raw text of a candidate lockfile, abstracted by the behaviour of
the external collaborators on it: `parsed` is the result of
`yaml.load` + `revertFromInlineSpecifiersFormatIfNecessary` when the try
block succeeds (`none` when it throws, which also covers YAML yielding a
non-object); `hasMergeMarkers` is `isDiff`; `merged` is the
`autofixMergeConflicts` result (`none` when the merge collaborator
throws). -/
structure RawText : Type where
  parsed : Option LockfileFile
  hasMergeMarkers : Bool
  merged : Option LockfileFile

/-- The file system's answer at a candidate path: missing (ENOENT), some
other I/O failure carrying its error code, or readable content. -/
inductive FileContent : Type
  | enoent : FileContent
  | fsError : String → FileContent
  | content : RawText → FileContent

/-- Options of `_read`, `read.ts` lines 34-38 (the optional
`autofixMergeConflicts` defaults to false when absent). -/
structure ReadOpts : Type where
  autofixMergeConflicts : Bool
  wantedVersions : Option (List VersionToken)
  ignoreIncompatible : Bool

/-- The errors `_read` can raise: the BROKEN_LOCKFILE PnpmError and the
LockfileBreakingChangeError both name the offending lockfile path; a
non-ENOENT file-system error and a failure of the external merge
collaborator propagate unchanged. -/
inductive ReadError : Type
  | brokenLockfile : String → ReadError
  | breakingChange : String → ReadError
  | fsError : String → ReadError
  | mergeConflictError : ReadError
deriving DecidableEq, Repr

/-- Messages emitted through the process-wide logger, each carrying the
context directory (called the logging prefix in the source) and, for the
downgrade warning, the wanted version named in the message. -/
inductive LogEntry : Type
  | mergeConflictResolvedInfo : String → LogEntry
  | downgradeWarning : VersionToken → String → LogEntry
  | ignoringIncompatibleWarning : String → String → LogEntry
deriving DecidableEq, Repr

/-- The value `_read` returns on success, `read.ts` lines 39-42. -/
structure ReadResult : Type where
  lockfile : Option LockfileFile
  hadConflicts : Bool
deriving DecidableEq, Repr

/-- The try/catch of `read.ts` lines 56-74: a successful parse is
normalized and reverted with `hadConflicts = false` and no log; on a parse
failure, unless autofix is permitted and conflict markers are present the
read fails with BROKEN_LOCKFILE naming the path; otherwise the merge
collaborator's output is normalized (no revert on this branch) with
`hadConflicts = true` and an info log, and a merge failure propagates. -/
def parseStep (revert : LockfileFile → LockfileFile)
    (lockfilePath ctxDir : String) (autofix : Bool) (raw : RawText) :
    Except ReadError (LockfileFile × Bool × List LogEntry) :=
  match raw.parsed with
  | some f =>
    Except.ok (revert (convertFromLockfileFileMutable f), false, [])
  | none =>
    if autofix = false ∨ raw.hasMergeMarkers = false then
      Except.error (ReadError.brokenLockfile lockfilePath)
    else
      match raw.merged with
      | some m =>
        Except.ok (convertFromLockfileFileMutable m, true,
          [LogEntry.mergeConflictResolvedInfo ctxDir])
      | none => Except.error ReadError.mergeConflictError

/-- The compatibility tail of `_read`, `read.ts` lines 75-102: an
accepting verdict returns the document (appending the downgrade warning
when there is one); a rejecting verdict returns Absent with a warning when
`ignoreIncompatible` is set and otherwise raises the Breaking-Change error
naming the path. -/
def gateStep (lockfilePath ctxDir : String)
    (wanted : Option (List VersionToken)) (ignoreIncompatible : Bool)
    (lockfile : LockfileFile) (hadConflicts : Bool) (logs : List LogEntry) :
    Except ReadError (ReadResult × List LogEntry) :=
  match evaluate lockfile.lockfileVersion wanted with
  | Verdict.accept =>
    Except.ok ({ lockfile := some lockfile, hadConflicts := hadConflicts }, logs)
  | Verdict.acceptWithWarning w =>
    Except.ok ({ lockfile := some lockfile, hadConflicts := hadConflicts },
      logs ++ [LogEntry.downgradeWarning w ctxDir])
  | Verdict.reject =>
    if ignoreIncompatible then
      Except.ok ({ lockfile := none, hadConflicts := false },
        logs ++ [LogEntry.ignoringIncompatibleWarning lockfilePath ctxDir])
    else
      Except.error (ReadError.breakingChange lockfilePath)

/-- The `_read` routine of `read.ts` lines 31-103 over the file system's
answer at `lockfilePath`: ENOENT yields Absent, any other I/O failure
propagates, and readable content goes through parse/recover then the
compatibility gate. -/
def readOne (revert : LockfileFile → LockfileFile)
    (lockfilePath ctxDir : String) (opts : ReadOpts) (file : FileContent) :
    Except ReadError (ReadResult × List LogEntry) :=
  match file with
  | FileContent.enoent =>
    Except.ok ({ lockfile := none, hadConflicts := false }, [])
  | FileContent.fsError code => Except.error (ReadError.fsError code)
  | FileContent.content raw =>
    match parseStep revert lockfilePath ctxDir opts.autofixMergeConflicts raw with
    | Except.error e => Except.error e
    | Except.ok (lockfile, hadConflicts, logs) =>
      gateStep lockfilePath ctxDir opts.wantedVersions opts.ignoreIncompatible
        lockfile hadConflicts logs

/-- The canonical candidate lockfile name, `WANTED_LOCKFILE` from
pnpm constants. -/
def wantedLockfileName : String := "pnpm-lock.yaml"

/-- The `path.join` used to form the candidate path. -/
def pathJoin (a b : String) : String := a ++ "/" ++ b

/-- The candidate loop of `_readWantedLockfile`, `read.ts` lines 115-125:
try each candidate name in order, stop at the first read whose lockfile is
present (truthy), and otherwise return the last attempt's result. -/
def readCandidates (revert : LockfileFile → LockfileFile)
    (fileAt : String → FileContent) (pkgPath : String)
    (wanted : Option (List VersionToken)) (ignoreIncompatible : Bool) :
    List String → Except ReadError (ReadResult × List LogEntry)
  | [] => Except.ok ({ lockfile := none, hadConflicts := false }, [])
  | name :: rest =>
    match readOne revert (pathJoin pkgPath name) pkgPath
        { autofixMergeConflicts := true, wantedVersions := wanted,
          ignoreIncompatible := ignoreIncompatible }
        (fileAt (pathJoin pkgPath name)) with
    | Except.error e => Except.error e
    | Except.ok r =>
      match r.1.lockfile with
      | some _ => Except.ok r
      | none =>
        match rest with
        | [] => Except.ok r
        | _ :: _ =>
          readCandidates revert fileAt pkgPath wanted ignoreIncompatible rest

/-- `_readWantedLockfile`, `read.ts` lines 105-126: a single candidate
name, read with merge-conflict autofix enabled. -/
def readWantedLockfileFull (revert : LockfileFile → LockfileFile)
    (fileAt : String → FileContent) (pkgPath : String)
    (wanted : Option (List VersionToken)) (ignoreIncompatible : Bool) :
    Except ReadError (ReadResult × List LogEntry) :=
  readCandidates revert fileAt pkgPath wanted ignoreIncompatible
    [wantedLockfileName]

/-- `readWantedLockfile`, `read.ts` lines 19-29: the public entry point
projects out the lockfile. -/
def readWantedLockfile (revert : LockfileFile → LockfileFile)
    (fileAt : String → FileContent) (pkgPath : String)
    (wanted : Option (List VersionToken)) (ignoreIncompatible : Bool) :
    Except ReadError (Option LockfileFile) :=
  (readWantedLockfileFull revert fileAt pkgPath wanted ignoreIncompatible).map
    (fun r => r.1.lockfile)

/-- Logs appended by the gate for an accepting verdict: the downgrade
warning when there is one, nothing otherwise. -/
def warnLogsOf (ctxDir : String) : Verdict → List LogEntry
  | Verdict.acceptWithWarning w => [LogEntry.downgradeWarning w ctxDir]
  | _ => []

/-- An empty canonical project snapshot, used to build concrete example
documents. -/
def emptySnap : ProjectSnapshot :=
  { specifiers := JsVal.val []
    dependenciesMeta := JsVal.undef
    publishDirectory := JsVal.undef
    dependencies := JsVal.undef
    optionalDependencies := JsVal.undef
    devDependencies := JsVal.undef }

/-- A canonical-schema document (importers present) carrying the given
format-version token. -/
def canonicalDoc (v : Option VersionToken) : LockfileFile :=
  { lockfileVersion := v
    importers := JsVal.val [(".", emptySnap)]
    specifiers := JsVal.undef
    dependenciesMeta := JsVal.undef
    publishDirectory := JsVal.undef
    dependencies := JsVal.undef
    optionalDependencies := JsVal.undef
    devDependencies := JsVal.undef
    packages := JsVal.undef }

/-- A legacy-schema document: no importers mapping, a null-valued root
`dependencies` field (YAML `dependencies:` with no value) next to a
present `devDependencies` map. -/
def legacyNullDepsDoc : LockfileFile :=
  { lockfileVersion := some (VersionToken.str 6 0)
    importers := JsVal.undef
    specifiers := JsVal.val [("foo", "^1.0.0")]
    dependenciesMeta := JsVal.undef
    publishDirectory := JsVal.undef
    dependencies := JsVal.null
    optionalDependencies := JsVal.undef
    devDependencies := JsVal.val [("foo", "1.0.0")]
    packages := JsVal.undef }

/-- A legacy-schema document whose root dependency-kind fields are
present (non-null) maps. -/
def legacyFlatDoc : LockfileFile :=
  { lockfileVersion := some (VersionToken.num 5 4)
    importers := JsVal.undef
    specifiers := JsVal.val [("a", "^1.0.0")]
    dependenciesMeta := JsVal.undef
    publishDirectory := JsVal.undef
    dependencies := JsVal.val [("a", "1.0.0")]
    optionalDependencies := JsVal.undef
    devDependencies := JsVal.undef
    packages := JsVal.undef }

/-- Raw content that parses to a canonical document declaring format
version 7.0 (a major ahead of the acceptable 6.x). -/
def rawV7 : RawText :=
  { parsed := some (canonicalDoc (some (VersionToken.str 7 0)))
    hasMergeMarkers := false
    merged := none }

/-- Raw content that parses to a canonical document declaring format
version 6.9 (same major as 6.0, strictly newer). -/
def rawV69 : RawText :=
  { parsed := some (canonicalDoc (some (VersionToken.str 6 9)))
    hasMergeMarkers := false
    merged := none }

/-- Raw content that fails to parse, carries merge-conflict markers, and
whose auto-merged document declares format version 7.0. -/
def conflictRawV7 : RawText :=
  { parsed := none
    hasMergeMarkers := true
    merged := some (canonicalDoc (some (VersionToken.str 7 0))) }

/-- Raw content that fails to parse, carries merge-conflict markers, and
whose auto-merged document declares format version 6.0. -/
def conflictRawV60 : RawText :=
  { parsed := none
    hasMergeMarkers := true
    merged := some (canonicalDoc (some (VersionToken.str 6 0))) }

/-- If no wanted version shares the document's expanded major component,
the `some` loop exhausts every entry and the gate rejects. -/
theorem evalSome_reject_of_no_major (v : Option VersionToken)
    (l : List VersionToken)
    (h : ∀ w ∈ l, (docSemver v).major ≠ (comverToSemver w).major) :
    evalSome v l = Verdict.reject := by
  induction l with
  | nil => rfl
  | cons w ws ih =>
    have hw := h w (List.mem_cons_self w ws)
    simp only [evalSome, if_neg hw]
    exact ih fun x hx => h x (List.mem_cons_of_mem w hx)

/-- If some wanted version shares the document's major component and the
document exceeds no same-major wanted version, the loop accepts silently. -/
theorem evalSome_accept_of_not_exceeding (v : Option VersionToken)
    (l : List VersionToken)
    (hex : ∃ w ∈ l, (docSemver v).major = (comverToSemver w).major)
    (hng : ∀ w ∈ l, (docSemver v).major = (comverToSemver w).major →
      SemVer.gtB (docSemver v) (comverToSemver w) = false) :
    evalSome v l = Verdict.accept := by
  induction l with
  | nil => simp at hex
  | cons w ws ih =>
    by_cases hm : (docSemver v).major = (comverToSemver w).major
    · have hg := hng w (List.mem_cons_self w ws) hm
      have hcond : ¬(v ≠ some (VersionToken.str 6 1) ∧
          SemVer.gtB (docSemver v) (comverToSemver w) = true) := by
        rw [hg]; simp
      simp only [evalSome, if_pos hm, if_neg hcond]
    · obtain ⟨u, hu, hmu⟩ := hex
      rcases List.mem_cons.mp hu with heq | hu2
      · exact absurd (heq ▸ hmu) hm
      · simp only [evalSome, if_neg hm]
        exact ih ⟨u, hu2, hmu⟩ fun x hx hx2 => hng x (List.mem_cons_of_mem w hx) hx2

/-- If some wanted version shares the document's major component, the
document exceeds every same-major wanted version, and the raw token is
not the string literal 6.1, the loop accepts with a downgrade warning
naming a member of the wanted set. -/
theorem evalSome_warn_of_exceeding (v : Option VersionToken)
    (l : List VersionToken)
    (hex : ∃ w ∈ l, (docSemver v).major = (comverToSemver w).major)
    (hgt : ∀ w ∈ l, (docSemver v).major = (comverToSemver w).major →
      SemVer.gtB (docSemver v) (comverToSemver w) = true)
    (hcv : v ≠ some (VersionToken.str 6 1)) :
    ∃ w ∈ l, evalSome v l = Verdict.acceptWithWarning w := by
  induction l with
  | nil => simp at hex
  | cons w ws ih =>
    by_cases hm : (docSemver v).major = (comverToSemver w).major
    · refine ⟨w, List.mem_cons_self w ws, ?_⟩
      have hg := hgt w (List.mem_cons_self w ws) hm
      simp only [evalSome, if_pos hm, if_pos (And.intro hcv hg)]
    · obtain ⟨u, hu, hmu⟩ := hex
      rcases List.mem_cons.mp hu with heq | hu2
      · exact absurd (heq ▸ hmu) hm
      · obtain ⟨x, hx, hxe⟩ := ih ⟨u, hu2, hmu⟩
          fun y hy hy2 => hgt y (List.mem_cons_of_mem w hy) hy2
        refine ⟨x, List.mem_cons_of_mem w hx, ?_⟩
        simp only [evalSome, if_neg hm]
        exact hxe

/-- Claim C5: for every parsed document d, applying the schema
normalization twice yields the same document as applying it once:
normalize(normalize(d)) = normalize(d). -/
theorem convert_idempotent (f : LockfileFile) :
    convertFromLockfileFileMutable (convertFromLockfileFileMutable f) =
      convertFromLockfileFileMutable f := by
  cases f with
  | mk lv imp sp dm pd dep odep ddep pkgs => cases imp <;> rfl

/-- Claim C7: a document that already contains the project-path →
snapshot mapping (importers) is returned unchanged by normalization: no
field is added, removed, or modified. -/
theorem convert_canonical_unchanged (f : LockfileFile)
    (m : List (String × ProjectSnapshot)) (h : f.importers = JsVal.val m) :
    convertFromLockfileFileMutable f = f := by
  unfold convertFromLockfileFileMutable
  rw [h]

/-- Witness for C7 at a concrete canonical document. -/
theorem convert_canonical_unchanged_witness :
    (canonicalDoc (some (VersionToken.str 6 0))).importers =
      JsVal.val [(".", emptySnap)] ∧
    convertFromLockfileFileMutable (canonicalDoc (some (VersionToken.str 6 0))) =
      canonicalDoc (some (VersionToken.str 6 0)) :=
  ⟨rfl, convert_canonical_unchanged (canonicalDoc (some (VersionToken.str 6 0)))
    [(".", emptySnap)] rfl⟩

/-- Claim C6 fails as stated: on a legacy document whose root
`dependencies` field is null, normalization leaves that legacy
dependency-kind field at the document root (the loop guard is
`!== null`), so a legacy flat field survives normalization. -/
theorem convert_null_field_remains_counterexample :
    legacyNullDepsDoc.importers = JsVal.undef ∧
    (convertFromLockfileFileMutable legacyNullDepsDoc).dependencies =
      JsVal.null ∧
    (JsVal.null : JsVal DepMap) ≠ JsVal.undef := by
  refine ⟨rfl, ?_, by decide⟩
  decide

/-- Claim C6, amended: for every parsed document lacking the importers
mapping, normalization exposes the default project-path → snapshot
mapping, removes the root `specifiers` field, and removes every NON-NULL
dependency-kind field from the document root (a null-valued field
remains there). -/
theorem convert_legacy_migrates (f : LockfileFile)
    (h : f.importers = JsVal.undef) :
    (∃ s, (convertFromLockfileFileMutable f).importers = JsVal.val [(".", s)]) ∧
    (convertFromLockfileFileMutable f).specifiers = JsVal.undef ∧
    (f.dependencies ≠ JsVal.null →
      (convertFromLockfileFileMutable f).dependencies = JsVal.undef) ∧
    (f.optionalDependencies ≠ JsVal.null →
      (convertFromLockfileFileMutable f).optionalDependencies = JsVal.undef) ∧
    (f.devDependencies ≠ JsVal.null →
      (convertFromLockfileFileMutable f).devDependencies = JsVal.undef) := by
  unfold convertFromLockfileFileMutable
  rw [h]
  refine ⟨⟨_, rfl⟩, rfl, fun h1 => ?_, fun h2 => ?_, fun h3 => ?_⟩ <;>
    simp only [movedRootField] <;> rw [if_neg] <;> assumption

/-- Witness for the amended C6 at a concrete legacy document with a
present root `dependencies` map. -/
theorem convert_legacy_migrates_witness :
    (convertFromLockfileFileMutable legacyFlatDoc).dependencies = JsVal.undef ∧
    (convertFromLockfileFileMutable legacyFlatDoc).specifiers = JsVal.undef :=
  ⟨(convert_legacy_migrates legacyFlatDoc rfl).2.2.1 (by decide),
   (convert_legacy_migrates legacyFlatDoc rfl).2.1⟩

/-- Claim C4: for every parsed document and every format-version token,
if the caller's acceptable-version set is absent or empty the gate
accepts unconditionally: the document is returned and no Breaking-Change
error is raised. -/
theorem read_accepts_when_no_wanted (revert : LockfileFile → LockfileFile)
    (lockfilePath ctxDir : String) (autofix ign : Bool)
    (v : Option VersionToken) (wanted : Option (List VersionToken))
    (hws : wanted = none ∨ wanted = some []) (f : LockfileFile)
    (raw : RawText) (hp : raw.parsed = some f) :
    evaluate v wanted = Verdict.accept ∧
    readOne revert lockfilePath ctxDir
        { autofixMergeConflicts := autofix, wantedVersions := wanted,
          ignoreIncompatible := ign } (FileContent.content raw) =
      Except.ok
        ({ lockfile := some (revert (convertFromLockfileFileMutable f)),
           hadConflicts := false }, []) := by
  have he : ∀ u : Option VersionToken, evaluate u wanted = Verdict.accept := by
    intro u; rcases hws with h | h <;> rw [h] <;> rfl
  refine ⟨he v, ?_⟩
  simp only [readOne, parseStep, hp, gateStep, he]

/-- Witness for C4: an empty wanted set accepts a version-7.0 document. -/
theorem read_accepts_when_no_wanted_witness :
    evaluate (some (VersionToken.str 7 0)) (some []) = Verdict.accept ∧
    readOne id "proj/pnpm-lock.yaml" "proj"
        { autofixMergeConflicts := true, wantedVersions := some [],
          ignoreIncompatible := false } (FileContent.content rawV7) =
      Except.ok
        ({ lockfile := some (canonicalDoc (some (VersionToken.str 7 0))),
           hadConflicts := false }, []) :=
  read_accepts_when_no_wanted id "proj/pnpm-lock.yaml" "proj" true false
    (some (VersionToken.str 7 0)) (some []) (Or.inr rfl)
    (canonicalDoc (some (VersionToken.str 7 0))) rawV7 rfl

/-- Claim C1: for a read of an existing, parseable lockfile whose
declared format version's major component matches no member of a
non-empty acceptable-version set, the read fails with the Breaking-Change
error naming the lockfile path when ignoreIncompatible is false, and
returns Absent (null document) with a logged warning and no error when
ignoreIncompatible is true. -/
theorem read_incompatible_breaking_or_absent
    (revert : LockfileFile → LockfileFile) (lockfilePath ctxDir : String)
    (opts : ReadOpts) (f : LockfileFile) (raw : RawText)
    (hp : raw.parsed = some f) (l : List VersionToken)
    (hw : opts.wantedVersions = some l) (hne : l ≠ [])
    (hmaj : ∀ w ∈ l,
      (docSemver (revert (convertFromLockfileFileMutable f)).lockfileVersion).major ≠
        (comverToSemver w).major) :
    (opts.ignoreIncompatible = false →
      readOne revert lockfilePath ctxDir opts (FileContent.content raw) =
        Except.error (ReadError.breakingChange lockfilePath)) ∧
    (opts.ignoreIncompatible = true →
      readOne revert lockfilePath ctxDir opts (FileContent.content raw) =
        Except.ok ({ lockfile := none, hadConflicts := false },
          [LogEntry.ignoringIncompatibleWarning lockfilePath ctxDir])) := by
  have hr : evaluate
      (revert (convertFromLockfileFileMutable f)).lockfileVersion
      opts.wantedVersions = Verdict.reject := by
    rw [hw]
    cases l with
    | nil => exact absurd rfl hne
    | cons w ws => exact evalSome_reject_of_no_major _ _ hmaj
  constructor <;> intro hi <;>
    simp only [readOne, parseStep, hp, gateStep, hr, hi, Bool.false_eq_true,
      if_true, if_false, List.nil_append]

/-- Witness for C1: a version-7.0 document against the wanted set
containing only 6.0, in both ignoreIncompatible modes. -/
theorem read_incompatible_breaking_or_absent_witness :
    readOne id "proj/pnpm-lock.yaml" "proj"
        { autofixMergeConflicts := true,
          wantedVersions := some [VersionToken.str 6 0],
          ignoreIncompatible := false } (FileContent.content rawV7) =
      Except.error (ReadError.breakingChange "proj/pnpm-lock.yaml") ∧
    readOne id "proj/pnpm-lock.yaml" "proj"
        { autofixMergeConflicts := true,
          wantedVersions := some [VersionToken.str 6 0],
          ignoreIncompatible := true } (FileContent.content rawV7) =
      Except.ok ({ lockfile := none, hadConflicts := false },
        [LogEntry.ignoringIncompatibleWarning "proj/pnpm-lock.yaml" "proj"]) :=
  ⟨(read_incompatible_breaking_or_absent id "proj/pnpm-lock.yaml" "proj"
      { autofixMergeConflicts := true,
        wantedVersions := some [VersionToken.str 6 0],
        ignoreIncompatible := false }
      (canonicalDoc (some (VersionToken.str 7 0))) rawV7 rfl
      [VersionToken.str 6 0] rfl (by decide) (by decide)).1 rfl,
   (read_incompatible_breaking_or_absent id "proj/pnpm-lock.yaml" "proj"
      { autofixMergeConflicts := true,
        wantedVersions := some [VersionToken.str 6 0],
        ignoreIncompatible := true }
      (canonicalDoc (some (VersionToken.str 7 0))) rawV7 rfl
      [VersionToken.str 6 0] rfl (by decide) (by decide)).2 rfl⟩

/-- Claim C2 fails as stated: the token 6.3 shares its major component
with the wanted version 6.5 and does not exceed it, yet against the
wanted set [6.0, 6.5] the gate returns the downgrade warning (keyed to
the FIRST same-major member 6.0), not a warning-free Accept. -/
theorem evaluate_not_exceeding_counterexample :
    (VersionToken.str 6 5 ∈ [VersionToken.str 6 0, VersionToken.str 6 5] ∧
     (docSemver (some (VersionToken.str 6 3))).major =
       (comverToSemver (VersionToken.str 6 5)).major ∧
     SemVer.gtB (docSemver (some (VersionToken.str 6 3)))
       (comverToSemver (VersionToken.str 6 5)) = false) ∧
    evaluate (some (VersionToken.str 6 3))
        (some [VersionToken.str 6 0, VersionToken.str 6 5]) =
      Verdict.acceptWithWarning (VersionToken.str 6 0) := by
  decide

/-- Claim C2, amended: for every format-version token that shares its
major component with some member of the acceptable-version set and whose
expanded version exceeds NO same-major member's expanded version, the
gate returns Accept with no downgrade warning. -/
theorem evaluate_accept_of_not_exceeding_any (v : Option VersionToken)
    (l : List VersionToken)
    (hex : ∃ w ∈ l, (docSemver v).major = (comverToSemver w).major)
    (hng : ∀ w ∈ l, (docSemver v).major = (comverToSemver w).major →
      SemVer.gtB (docSemver v) (comverToSemver w) = false) :
    evaluate v (some l) = Verdict.accept := by
  cases l with
  | nil => simp at hex
  | cons w ws => exact evalSome_accept_of_not_exceeding v (w :: ws) hex hng

/-- Witness for the amended C2: token 6.3 against the wanted set
[6.5, 6.3]. -/
theorem evaluate_accept_of_not_exceeding_any_witness :
    evaluate (some (VersionToken.str 6 3))
        (some [VersionToken.str 6 5, VersionToken.str 6 3]) =
      Verdict.accept :=
  evaluate_accept_of_not_exceeding_any (some (VersionToken.str 6 3))
    [VersionToken.str 6 5, VersionToken.str 6 3] (by decide) (by decide)

/-- Claim C3: for every format-version token whose expanded version
strictly exceeds every eligible (same-major) acceptable version — at
least one being eligible — and whose raw token is not the transitional
carve-out literal 6.1, the gate accepts with a logged downgrade warning,
and the warning never changes the success of the read: the document is
still returned. -/
theorem read_warns_and_returns_document (revert : LockfileFile → LockfileFile)
    (lockfilePath ctxDir : String) (autofix ign : Bool) (f : LockfileFile)
    (raw : RawText) (hp : raw.parsed = some f) (l : List VersionToken)
    (hex : ∃ w ∈ l,
      (docSemver (revert (convertFromLockfileFileMutable f)).lockfileVersion).major =
        (comverToSemver w).major)
    (hgt : ∀ w ∈ l,
      (docSemver (revert (convertFromLockfileFileMutable f)).lockfileVersion).major =
        (comverToSemver w).major →
      SemVer.gtB (docSemver (revert (convertFromLockfileFileMutable f)).lockfileVersion)
        (comverToSemver w) = true)
    (hcv : (revert (convertFromLockfileFileMutable f)).lockfileVersion ≠
      some (VersionToken.str 6 1)) :
    ∃ w ∈ l,
      evaluate (revert (convertFromLockfileFileMutable f)).lockfileVersion
          (some l) = Verdict.acceptWithWarning w ∧
      readOne revert lockfilePath ctxDir
          { autofixMergeConflicts := autofix, wantedVersions := some l,
            ignoreIncompatible := ign } (FileContent.content raw) =
        Except.ok
          ({ lockfile := some (revert (convertFromLockfileFileMutable f)),
             hadConflicts := false }, [LogEntry.downgradeWarning w ctxDir]) := by
  cases l with
  | nil => simp at hex
  | cons w0 ws =>
    obtain ⟨w, hwl, hwe⟩ := evalSome_warn_of_exceeding _ _ hex hgt hcv
    have he : evaluate (revert (convertFromLockfileFileMutable f)).lockfileVersion
        (some (w0 :: ws)) = Verdict.acceptWithWarning w := hwe
    refine ⟨w, hwl, he, ?_⟩
    simp only [readOne, parseStep, hp, gateStep, he, List.nil_append]

/-- Witness for C3: a version-6.9 document against the wanted set
containing only 6.0 is returned with the downgrade warning. -/
theorem read_warns_and_returns_document_witness :
    readOne id "proj/pnpm-lock.yaml" "proj"
        { autofixMergeConflicts := true,
          wantedVersions := some [VersionToken.str 6 0],
          ignoreIncompatible := false } (FileContent.content rawV69) =
      Except.ok
        ({ lockfile := some (canonicalDoc (some (VersionToken.str 6 9))),
           hadConflicts := false },
          [LogEntry.downgradeWarning (VersionToken.str 6 0) "proj"]) := by
  obtain ⟨w, hwl, _, hread⟩ := read_warns_and_returns_document id
    "proj/pnpm-lock.yaml" "proj" true false
    (canonicalDoc (some (VersionToken.str 6 9))) rawV69 rfl
    [VersionToken.str 6 0] (by decide) (by decide) (by decide)
  rcases List.mem_singleton.mp hwl with rfl
  exact hread

/-- Claim C8 fails as stated: on raw text that fails to parse, with
conflict markers, autofix permitted and a successful merge, the read does
NOT always return hadConflicts = true with a document — when the merged
document's format version 7.0 is rejected against the wanted set [6.0]
and ignoreIncompatible is true, the read returns the null document with
hadConflicts = false. -/
theorem read_conflict_counterexample :
    conflictRawV7.hasMergeMarkers = true ∧
    conflictRawV7.merged = some (canonicalDoc (some (VersionToken.str 7 0))) ∧
    readOne id "proj/pnpm-lock.yaml" "proj"
        { autofixMergeConflicts := true,
          wantedVersions := some [VersionToken.str 6 0],
          ignoreIncompatible := true } (FileContent.content conflictRawV7) =
      Except.ok ({ lockfile := none, hadConflicts := false },
        [LogEntry.mergeConflictResolvedInfo "proj",
         LogEntry.ignoringIncompatibleWarning "proj/pnpm-lock.yaml" "proj"]) := by
  refine ⟨rfl, rfl, ?_⟩
  rfl

/-- Claim C8, amended: for every raw lockfile text that fails to parse,
if it contains unresolved merge-conflict markers, autofix is permitted,
the merge collaborator succeeds, AND the merged document's format version
is accepted by the compatibility gate, the read returns
hadConflicts = true together with the parsed, normalized document; if it
contains no conflict markers or autofix is not permitted, the read fails
with the Broken-Document error naming the path. -/
theorem read_conflict_resolved (revert : LockfileFile → LockfileFile)
    (lockfilePath ctxDir : String) (opts : ReadOpts) (raw : RawText)
    (hp : raw.parsed = none) :
    (∀ m, raw.merged = some m → raw.hasMergeMarkers = true →
      opts.autofixMergeConflicts = true →
      (evaluate (convertFromLockfileFileMutable m).lockfileVersion
          opts.wantedVersions).isAccepting = true →
      readOne revert lockfilePath ctxDir opts (FileContent.content raw) =
        Except.ok
          ({ lockfile := some (convertFromLockfileFileMutable m),
             hadConflicts := true },
           LogEntry.mergeConflictResolvedInfo ctxDir ::
             warnLogsOf ctxDir
               (evaluate (convertFromLockfileFileMutable m).lockfileVersion
                 opts.wantedVersions))) ∧
    (opts.autofixMergeConflicts = false ∨ raw.hasMergeMarkers = false →
      readOne revert lockfilePath ctxDir opts (FileContent.content raw) =
        Except.error (ReadError.brokenLockfile lockfilePath)) := by
  constructor
  · intro m hm hmk ha hacc
    have hcond : ¬(opts.autofixMergeConflicts = false ∨
        raw.hasMergeMarkers = false) := by
      rw [ha, hmk]; simp
    simp only [readOne, parseStep, hp, if_neg hcond, hm, gateStep]
    cases hv : evaluate (convertFromLockfileFileMutable m).lockfileVersion
        opts.wantedVersions with
    | accept => simp [warnLogsOf]
    | acceptWithWarning w => simp [warnLogsOf]
    | reject => rw [hv] at hacc; simp [Verdict.isAccepting] at hacc
  · intro h
    simp only [readOne, parseStep, hp, if_pos h]

/-- Witness for the amended C8: a conflicted file whose merge yields a
compatible 6.0 document is returned with hadConflicts = true, and the
same file with autofix forbidden is a Broken-Document error. -/
theorem read_conflict_resolved_witness :
    readOne id "proj/pnpm-lock.yaml" "proj"
        { autofixMergeConflicts := true,
          wantedVersions := some [VersionToken.str 6 0],
          ignoreIncompatible := false } (FileContent.content conflictRawV60) =
      Except.ok
        ({ lockfile := some (canonicalDoc (some (VersionToken.str 6 0))),
           hadConflicts := true },
         [LogEntry.mergeConflictResolvedInfo "proj"]) ∧
    readOne id "proj/pnpm-lock.yaml" "proj"
        { autofixMergeConflicts := false,
          wantedVersions := some [VersionToken.str 6 0],
          ignoreIncompatible := false } (FileContent.content conflictRawV60) =
      Except.error (ReadError.brokenLockfile "proj/pnpm-lock.yaml") :=
  ⟨(read_conflict_resolved id "proj/pnpm-lock.yaml" "proj"
      { autofixMergeConflicts := true,
        wantedVersions := some [VersionToken.str 6 0],
        ignoreIncompatible := false } conflictRawV60 rfl).1
      (canonicalDoc (some (VersionToken.str 6 0))) rfl rfl rfl (by decide),
   (read_conflict_resolved id "proj/pnpm-lock.yaml" "proj"
      { autofixMergeConflicts := false,
        wantedVersions := some [VersionToken.str 6 0],
        ignoreIncompatible := false } conflictRawV60 rfl).2 (Or.inl rfl)⟩

/-- Claim C9: a candidate path at which no file exists (ENOENT) yields
Absent (null document, hadConflicts = false) without an error, and every
other I/O failure propagates unchanged as a fatal error. -/
theorem read_enoent_absent_io_propagates
    (revert : LockfileFile → LockfileFile) (lockfilePath ctxDir : String)
    (opts : ReadOpts) (code : String) :
    readOne revert lockfilePath ctxDir opts FileContent.enoent =
      Except.ok ({ lockfile := none, hadConflicts := false }, []) ∧
    readOne revert lockfilePath ctxDir opts (FileContent.fsError code) =
      Except.error (ReadError.fsError code) :=
  ⟨rfl, rfl⟩

/-- Claim C10: when merge conflicts were detected and successfully
auto-resolved but the merged document's format version is incompatible
with the (non-empty) acceptable-version set and ignoreIncompatible is
true, the read returns hadConflicts = false together with the null
document: the conflict flag is discarded along with the document. -/
theorem read_conflict_flag_discarded (revert : LockfileFile → LockfileFile)
    (lockfilePath ctxDir : String) (raw : RawText) (hp : raw.parsed = none)
    (hmk : raw.hasMergeMarkers = true) (m : LockfileFile)
    (hm : raw.merged = some m) (l : List VersionToken) (hne : l ≠ [])
    (hmaj : ∀ w ∈ l,
      (docSemver (convertFromLockfileFileMutable m).lockfileVersion).major ≠
        (comverToSemver w).major) :
    readOne revert lockfilePath ctxDir
        { autofixMergeConflicts := true, wantedVersions := some l,
          ignoreIncompatible := true } (FileContent.content raw) =
      Except.ok ({ lockfile := none, hadConflicts := false },
        [LogEntry.mergeConflictResolvedInfo ctxDir,
         LogEntry.ignoringIncompatibleWarning lockfilePath ctxDir]) := by
  have hr : evaluate (convertFromLockfileFileMutable m).lockfileVersion
      (some l) = Verdict.reject := by
    cases l with
    | nil => exact absurd rfl hne
    | cons w ws => exact evalSome_reject_of_no_major _ _ hmaj
  have hcond : ¬((true : Bool) = false ∨ raw.hasMergeMarkers = false) := by
    rw [hmk]; simp
  simp only [readOne, parseStep, hp, if_neg hcond, hm, gateStep, hr,
    if_true, List.singleton_append]

/-- Witness for C10: the conflicted file whose merge yields a 7.0
document, read against the wanted set [6.0] with ignoreIncompatible. -/
theorem read_conflict_flag_discarded_witness :
    readOne id "proj/pnpm-lock.yaml" "proj"
        { autofixMergeConflicts := true,
          wantedVersions := some [VersionToken.str 6 0],
          ignoreIncompatible := true } (FileContent.content conflictRawV7) =
      Except.ok ({ lockfile := none, hadConflicts := false },
        [LogEntry.mergeConflictResolvedInfo "proj",
         LogEntry.ignoringIncompatibleWarning "proj/pnpm-lock.yaml" "proj"]) :=
  read_conflict_flag_discarded id "proj/pnpm-lock.yaml" "proj" conflictRawV7
    rfl rfl (canonicalDoc (some (VersionToken.str 7 0))) rfl
    [VersionToken.str 6 0] (by decide) (by decide)
